import Mathlib

/-!
Verification of the Adaptive Thermostat controller
(`custom_components/adaptive_thermostat`).

The control engine is embedded shallowly:

* `price_based_shift_percent` (from `const.py`) is the tanh-based
  price-to-temperature-shift transfer function, over the reals.
* The climate entity (`climate.py`) is a record `Entity α` over a linear
  ordered field `α`; evaluation (`_async_control_heating`), mode changes
  (`async_set_hvac_mode`) and target changes (`async_set_temperature`)
  become pure functions from a state and a coordinator reading to a new
  state together with the optional actuator command (the setpoint sent to
  `_async_set_real_thermostat`).  The underlying service call may fail;
  its outcome is passed in as an `Except String Unit` value, and the
  try/except wrapper of `_async_set_real_thermostat` is modelled by
  `set_real_thermostat`.
* The coordinator fetch (`_async_update_data` in `__init__.py`) becomes
  `async_update_data` over an environment giving, for each sensor, whether
  the entity exists and whether its state parses as a number.

The controller functions are generic in the shift function (an argument
`shift_fn`, standing for the imported `price_based_shift_percent`), so the
control-flow theorems hold for the actual tanh shift at `α = ℝ` while
witnesses can be evaluated over `ℚ`.
-/

namespace AdaptiveThermostat

/-- Modes the entity supports: `_attr_hvac_modes = [HVACMode.OFF, HVACMode.HEAT]`. -/
inductive HVACMode where
  | off
  | heat
deriving DecidableEq

/-- List of supported modes, as checked by `async_set_hvac_mode`. -/
def hvac_modes : List HVACMode := [HVACMode.off, HVACMode.heat]

/-- Record returned by the coordinator fetch: the `temperature` and
`price_diff_percent` entries of the `data` dict, each a number or `None`. -/
structure CoordData (α : Type) where
  temperature : Option α
  price_diff_percent : Option α
deriving DecidableEq

/-- Configuration and mutable state of the `AdaptiveThermostat` entity, as set
up in `__init__` of the climate entity.  `price_sensor_configured` models
whether `self._price_sensor_id` is set (truthy). -/
structure Entity (α : Type) where
  price_sensor_configured : Bool
  tolerance : α
  base_shift : α
  high_setpoint : α
  low_setpoint : α
  max_price_shift : α
  price_steepness : α
  target_temperature : α
  hvac_mode : HVACMode
  is_heating : Bool
deriving DecidableEq

/-- Declared entity attribute `_attr_min_temp = 5.0`. -/
def attr_min_temp : ℚ := 5

/-- Declared entity attribute `_attr_max_temp = 35.0`. -/
def attr_max_temp : ℚ := 35

/-- Declared entity attribute `_attr_target_temperature_step = 0.5`. -/
def attr_target_temperature_step : ℚ := 1 / 2

/-- Property `current_temperature`: `None` when `coordinator.data` is `None`,
otherwise the value of the `temperature` key. -/
def current_temperature {α : Type} (data : Option (CoordData α)) : Option α :=
  match data with
  | none => none
  | some d => d.temperature

/-- Models `_async_set_real_thermostat`: the underlying `climate.set_temperature`
service call has outcome `call_result`; the body wraps it in try/except,
catching every exception and logging it, so the caller always sees success. -/
def set_real_thermostat (call_result : Except String Unit) : Except String Unit :=
  match call_result with
  | Except.ok _ => Except.ok ()
  | Except.error _ => Except.ok ()

/-- Models `_calculate_total_shift`: start from `base_shift`; when a price
sensor is configured and `coordinator.data` is present and holds a numeric
`price_diff_percent`, add the price-based shift. -/
def calculate_total_shift {α : Type} [LinearOrderedField α]
    (shift_fn : α → α → α → α) (e : Entity α) (data : Option (CoordData α)) : α :=
  match e.price_sensor_configured, data with
  | true, some d =>
    match d.price_diff_percent with
    | some price_diff => e.base_shift + shift_fn price_diff e.max_price_shift e.price_steepness
    | none => e.base_shift
  | _, _ => e.base_shift

/-- Hysteresis decision of `_async_control_heating` (lines 170-181): below the
lower threshold heat, above the upper threshold do not, inside the dead-band
keep the previous heating state. -/
def should_heat_decision {α : Type} [LinearOrderedField α]
    (current_temp target tolerance total_shift : α) (is_heating : Bool) : Bool :=
  if current_temp < target - tolerance + total_shift then true
  else if current_temp > target + tolerance + total_shift then false
  else is_heating

/-- Evaluation body of `_async_control_heating` once a numeric temperature is
in hand: compute the decision and, only when it differs from the stored
`_is_heating`, update the bit and command the matching setpoint.  The locals
`total_shift` and `should_heat` of the source are written out in full. -/
def heat_eval {α : Type} [LinearOrderedField α]
    (shift_fn : α → α → α → α) (e : Entity α) (data : Option (CoordData α))
    (current_temp : α) (call_result : Except String Unit) :
    Except String (Entity α × Option α) :=
  if should_heat_decision current_temp e.target_temperature e.tolerance
      (calculate_total_shift shift_fn e data) e.is_heating ≠ e.is_heating then
    (set_real_thermostat call_result).map fun _ =>
      ({ e with
          is_heating :=
            should_heat_decision current_temp e.target_temperature e.tolerance
              (calculate_total_shift shift_fn e data) e.is_heating },
       some
         (if should_heat_decision current_temp e.target_temperature e.tolerance
              (calculate_total_shift shift_fn e data) e.is_heating
          then e.high_setpoint else e.low_setpoint))
  else Except.ok (e, none)

/-- Models `_async_control_heating`: return immediately when the mode is OFF or
the current temperature is unavailable, otherwise run the hysteresis
evaluation.  The result is the new entity state paired with the optional
setpoint commanded to the real thermostat. -/
def control_heating {α : Type} [LinearOrderedField α]
    (shift_fn : α → α → α → α) (e : Entity α) (data : Option (CoordData α))
    (call_result : Except String Unit) : Except String (Entity α × Option α) :=
  if e.hvac_mode = HVACMode.off then Except.ok (e, none)
  else
    match current_temperature data with
    | none => Except.ok (e, none)
    | some current_temp => heat_eval shift_fn e data current_temp call_result

/-- Result of an evaluation whose actuator call succeeds. -/
def control_heating_run {α : Type} [LinearOrderedField α]
    (shift_fn : α → α → α → α) (e : Entity α) (data : Option (CoordData α)) :
    Entity α × Option α :=
  match control_heating shift_fn e data (Except.ok ()) with
  | Except.ok r => r
  | Except.error _ => (e, none)

/-- Models `async_set_hvac_mode`: ignore unsupported modes; store the new mode;
on OFF command the low setpoint and clear the heating bit; on HEAT re-evaluate
immediately. -/
def set_hvac_mode {α : Type} [LinearOrderedField α]
    (shift_fn : α → α → α → α) (e : Entity α) (data : Option (CoordData α))
    (mode : HVACMode) (call_result : Except String Unit) :
    Except String (Entity α × Option α) :=
  if mode ∉ hvac_modes then Except.ok (e, none)
  else
    let e1 := { e with hvac_mode := mode }
    match mode with
    | HVACMode.off =>
      (set_real_thermostat call_result).map fun _ =>
        ({ e1 with is_heating := false }, some e1.low_setpoint)
    | HVACMode.heat => control_heating shift_fn e1 data call_result

/-- Models `async_set_temperature`: ignore a missing temperature argument;
store the given value as the target and re-evaluate immediately. -/
def set_temperature {α : Type} [LinearOrderedField α]
    (shift_fn : α → α → α → α) (e : Entity α) (data : Option (CoordData α))
    (temperature : Option α) (call_result : Except String Unit) :
    Except String (Entity α × Option α) :=
  match temperature with
  | none => Except.ok (e, none)
  | some t => control_heating shift_fn { e with target_temperature := t } data call_result

/-- Models `price_based_shift_percent` from `const.py`:
`p = price_diff_percent / 100`; the shift is `-max_shift * tanh(steepness * p)`. -/
noncomputable def price_based_shift_percent (price_diff_percent max_shift steepness : ℝ) : ℝ :=
  -max_shift * Real.tanh (steepness * (price_diff_percent / 100))

/-- Environment seen by the coordinator fetch: for each sensor, `none` when the
entity does not exist, otherwise the outcome of `float(state.state)` (a value,
or the raised `ValueError` or `TypeError` message). -/
structure SensorEnv (α : Type) where
  temp_state : Option (Except String α)
  price_state : Option (Except String α)

/-- Models `AdaptiveThermostatCoordinator._async_update_data`: a missing entity
or a non-numeric state yields `None` for the respective field (a warning is
logged); the price field additionally stays `None` when no price sensor is
configured. -/
def async_update_data {α : Type} (price_sensor_configured : Bool) (env : SensorEnv α) :
    CoordData α :=
  let temperature : Option α :=
    match env.temp_state with
    | none => none
    | some (Except.ok v) => some v
    | some (Except.error _) => none
  let price : Option α :=
    if price_sensor_configured then
      match env.price_state with
      | none => none
      | some (Except.ok v) => some v
      | some (Except.error _) => none
    else none
  ⟨temperature, price⟩

/-! Helper lemmas about `Real.tanh`, needed for the shift-function properties. -/

/-- Closed form for tanh used below: `tanh x = 1 - 2 / (exp (2x) + 1)`. -/
theorem tanh_closed_form (x : ℝ) : Real.tanh x = 1 - 2 / (Real.exp (2 * x) + 1) := by
  have hx : (0 : ℝ) < Real.exp x := Real.exp_pos x
  have hne : Real.exp x ≠ 0 := ne_of_gt hx
  have hx2 : Real.exp (2 * x) = Real.exp x * Real.exp x := by
    rw [two_mul, Real.exp_add]
  have hden : Real.exp x + (Real.exp x)⁻¹ ≠ 0 := by positivity
  have hden2 : Real.exp x * Real.exp x + 1 ≠ 0 := by positivity
  rw [Real.tanh_eq_sinh_div_cosh, Real.sinh_eq, Real.cosh_eq, Real.exp_neg, hx2]
  field_simp
  ring

/-- Strict upper bound: `tanh x < 1`. -/
theorem tanh_lt_one (x : ℝ) : Real.tanh x < 1 := by
  rw [tanh_closed_form]
  have h : (0 : ℝ) < Real.exp (2 * x) + 1 := by positivity
  have : 0 < 2 / (Real.exp (2 * x) + 1) := by positivity
  linarith

/-- Strict lower bound: `-1 < tanh x`. -/
theorem neg_one_lt_tanh (x : ℝ) : -1 < Real.tanh x := by
  rw [tanh_closed_form]
  have he : (0 : ℝ) < Real.exp (2 * x) := Real.exp_pos _
  have h : (0 : ℝ) < Real.exp (2 * x) + 1 := by positivity
  have : 2 / (Real.exp (2 * x) + 1) < 2 := by
    rw [div_lt_iff₀ h]
    nlinarith
  linarith

/-- Strict monotonicity of `tanh`. -/
theorem tanh_strictMono : StrictMono Real.tanh := by
  intro a b hab
  rw [tanh_closed_form, tanh_closed_form]
  have h1 : Real.exp (2 * a) < Real.exp (2 * b) := Real.exp_lt_exp.mpr (by linarith)
  have h2 : (0 : ℝ) < Real.exp (2 * a) + 1 := by positivity
  have h3 : 2 / (Real.exp (2 * b) + 1) < 2 / (Real.exp (2 * a) + 1) :=
    div_lt_div_of_pos_left (by norm_num) h2 (by linarith)
  linarith

/-! Helper lemmas about the evaluation. -/

/-- Unfolding lemma: with mode HEAT and a numeric reading the evaluation is
`heat_eval`. -/
theorem control_heating_heat {α : Type} [LinearOrderedField α]
    (shift_fn : α → α → α → α) (e : Entity α) (data : Option (CoordData α))
    (ct : α) (call_result : Except String Unit)
    (hmode : e.hvac_mode = HVACMode.heat) (ht : current_temperature data = some ct) :
    control_heating shift_fn e data call_result = heat_eval shift_fn e data ct call_result := by
  unfold control_heating
  rw [hmode, ht]
  rfl

/-- The wrapped actuator call always reports success. -/
theorem set_real_thermostat_ok (call_result : Except String Unit) :
    set_real_thermostat call_result = Except.ok () := by
  cases call_result <;> rfl

/-- Evaluation in OFF mode returns immediately, for any actuator outcome. -/
theorem control_heating_off {α : Type} [LinearOrderedField α]
    (shift_fn : α → α → α → α) (e : Entity α) (data : Option (CoordData α))
    (call_result : Except String Unit) (hmode : e.hvac_mode = HVACMode.off) :
    control_heating shift_fn e data call_result = Except.ok (e, none) := by
  unfold control_heating
  rw [hmode]
  rfl

/-- Evaluation with no temperature reading returns immediately, for any
actuator outcome. -/
theorem control_heating_nodata {α : Type} [LinearOrderedField α]
    (shift_fn : α → α → α → α) (e : Entity α) (data : Option (CoordData α))
    (call_result : Except String Unit) (ht : current_temperature data = none) :
    control_heating shift_fn e data call_result = Except.ok (e, none) := by
  unfold control_heating
  rw [ht]
  split
  · rfl
  · rfl

/-- Evaluation in OFF mode: the run result is the unchanged state. -/
theorem control_heating_run_off {α : Type} [LinearOrderedField α]
    (shift_fn : α → α → α → α) (e : Entity α) (data : Option (CoordData α))
    (hmode : e.hvac_mode = HVACMode.off) :
    control_heating_run shift_fn e data = (e, none) := by
  unfold control_heating_run
  rw [control_heating_off shift_fn e data (Except.ok ()) hmode]

/-- Evaluation with no temperature reading: the run result is the unchanged
state. -/
theorem control_heating_run_nodata {α : Type} [LinearOrderedField α]
    (shift_fn : α → α → α → α) (e : Entity α) (data : Option (CoordData α))
    (ht : current_temperature data = none) :
    control_heating_run shift_fn e data = (e, none) := by
  unfold control_heating_run
  rw [control_heating_nodata shift_fn e data (Except.ok ()) ht]

/-- Characterisation of a successful HEAT-mode evaluation in terms of the
hysteresis decision. -/
theorem control_heating_run_heat {α : Type} [LinearOrderedField α]
    (shift_fn : α → α → α → α) (e : Entity α) (data : Option (CoordData α)) (ct : α)
    (hmode : e.hvac_mode = HVACMode.heat) (ht : current_temperature data = some ct) :
    control_heating_run shift_fn e data
      = (if should_heat_decision ct e.target_temperature e.tolerance
            (calculate_total_shift shift_fn e data) e.is_heating ≠ e.is_heating
         then ({ e with
                  is_heating :=
                    should_heat_decision ct e.target_temperature e.tolerance
                      (calculate_total_shift shift_fn e data) e.is_heating },
               some
                 (if should_heat_decision ct e.target_temperature e.tolerance
                      (calculate_total_shift shift_fn e data) e.is_heating
                  then e.high_setpoint else e.low_setpoint))
         else (e, none)) := by
  unfold control_heating_run
  rw [control_heating_heat shift_fn e data ct (Except.ok ()) hmode ht]
  unfold heat_eval
  rw [set_real_thermostat_ok]
  split_ifs with h <;> rfl

/-- An evaluation never propagates an error, and its result does not depend on
the actuator outcome. -/
theorem control_heating_eq_run {α : Type} [LinearOrderedField α]
    (shift_fn : α → α → α → α) (e : Entity α) (data : Option (CoordData α))
    (call_result : Except String Unit) :
    control_heating shift_fn e data call_result
      = Except.ok (control_heating_run shift_fn e data) := by
  cases hm : e.hvac_mode with
  | off =>
    rw [control_heating_off shift_fn e data call_result hm,
      control_heating_run_off shift_fn e data hm]
  | heat =>
    cases htd : current_temperature data with
    | none =>
      rw [control_heating_nodata shift_fn e data call_result htd,
        control_heating_run_nodata shift_fn e data htd]
    | some ct =>
      rw [control_heating_heat shift_fn e data ct call_result hm htd,
        control_heating_run_heat shift_fn e data ct hm htd]
      unfold heat_eval
      rw [set_real_thermostat_ok]
      split_ifs with h <;> rfl

/-- An evaluation leaves the mode and the target temperature unchanged. -/
theorem control_heating_run_frame {α : Type} [LinearOrderedField α]
    (shift_fn : α → α → α → α) (e : Entity α) (data : Option (CoordData α)) :
    (control_heating_run shift_fn e data).1.hvac_mode = e.hvac_mode
      ∧ (control_heating_run shift_fn e data).1.target_temperature = e.target_temperature := by
  cases hm : e.hvac_mode with
  | off =>
    rw [control_heating_run_off shift_fn e data hm]
    exact ⟨hm, rfl⟩
  | heat =>
    cases htd : current_temperature data with
    | none =>
      rw [control_heating_run_nodata shift_fn e data htd]
      exact ⟨hm, rfl⟩
    | some ct =>
      rw [control_heating_run_heat shift_fn e data ct hm htd]
      split
      · exact ⟨hm, rfl⟩
      · exact ⟨hm, rfl⟩

/-- Helper: in HEAT mode with a numeric reading, the post-evaluation heating
bit equals the hysteresis decision. -/
theorem control_heating_run_is_heating {α : Type} [LinearOrderedField α]
    (shift_fn : α → α → α → α) (e : Entity α) (data : Option (CoordData α)) (ct : α)
    (hmode : e.hvac_mode = HVACMode.heat) (ht : current_temperature data = some ct) :
    (control_heating_run shift_fn e data).1.is_heating
      = should_heat_decision ct e.target_temperature e.tolerance
          (calculate_total_shift shift_fn e data) e.is_heating := by
  rw [control_heating_run_heat shift_fn e data ct hmode ht]
  split_ifs with h
  all_goals first
  | rfl
  | exact (not_ne_iff.mp h).symm

/-- C1: in HEAT mode with a present temperature reading, the heating decision
follows the shifted hysteresis thresholds: below `target - tolerance + shift`
heating turns on, above `target + tolerance + shift` it turns off, and inside
the closed dead-band the previous `is_heating` value is retained (the
hypothesis `0 ≤ e.tolerance` is the configuration invariant `tolerance ≥ 0`). -/
theorem hysteresis_decision {α : Type} [LinearOrderedField α]
    (shift_fn : α → α → α → α) (e : Entity α) (data : Option (CoordData α)) (ct : α)
    (htol : 0 ≤ e.tolerance)
    (hmode : e.hvac_mode = HVACMode.heat) (ht : current_temperature data = some ct) :
    (ct < e.target_temperature - e.tolerance + calculate_total_shift shift_fn e data →
      (control_heating_run shift_fn e data).1.is_heating = true)
    ∧ (ct > e.target_temperature + e.tolerance + calculate_total_shift shift_fn e data →
      (control_heating_run shift_fn e data).1.is_heating = false)
    ∧ (e.target_temperature - e.tolerance + calculate_total_shift shift_fn e data ≤ ct →
        ct ≤ e.target_temperature + e.tolerance + calculate_total_shift shift_fn e data →
      (control_heating_run shift_fn e data).1.is_heating = e.is_heating) := by
  rw [control_heating_run_is_heating shift_fn e data ct hmode ht]
  refine ⟨?_, ?_, ?_⟩
  · intro h1
    unfold should_heat_decision
    rw [if_pos h1]
  · intro h2
    have hnot : ¬ct < e.target_temperature - e.tolerance + calculate_total_shift shift_fn e data := by
      linarith
    unfold should_heat_decision
    rw [if_neg hnot, if_pos h2]
  · intro hl hu
    have hnot1 : ¬ct < e.target_temperature - e.tolerance + calculate_total_shift shift_fn e data :=
      not_lt.mpr hl
    have hnot2 : ¬ct > e.target_temperature + e.tolerance + calculate_total_shift shift_fn e data :=
      not_lt.mpr hu
    unfold should_heat_decision
    rw [if_neg hnot1, if_neg hnot2]

/-- Witness for C1: scenario of §8.6 of the spec, target 20, tolerance 0.5,
no shift, reading 19.3 below the lower threshold 19.5: heating turns on. -/
theorem hysteresis_decision_witness :
    (control_heating_run (fun _ _ _ => (0 : ℚ))
        ⟨false, 1/2, 0, 35, 5, 3, 3/2, 20, HVACMode.heat, false⟩
        (some ⟨some (193/10), none⟩)).1.is_heating = true :=
  (hysteresis_decision (fun _ _ _ => (0 : ℚ))
      ⟨false, 1/2, 0, 35, 5, 3, 3/2, 20, HVACMode.heat, false⟩
      (some ⟨some (193/10), none⟩) (193/10)
      (by norm_num) rfl rfl).1 (by norm_num [calculate_total_shift])

/-- C2: in HEAT mode with a present temperature reading, the actuator command
is issued iff the computed decision differs from the stored `is_heating`; when
issued it is the high setpoint for turning on and the low setpoint for turning
off; when the decision repeats the state no command is issued. -/
theorem edge_triggered_actuation {α : Type} [LinearOrderedField α]
    (shift_fn : α → α → α → α) (e : Entity α) (data : Option (CoordData α)) (ct : α)
    (hmode : e.hvac_mode = HVACMode.heat) (ht : current_temperature data = some ct) :
    ((control_heating_run shift_fn e data).2.isSome
        ↔ should_heat_decision ct e.target_temperature e.tolerance
            (calculate_total_shift shift_fn e data) e.is_heating ≠ e.is_heating)
    ∧ (should_heat_decision ct e.target_temperature e.tolerance
          (calculate_total_shift shift_fn e data) e.is_heating ≠ e.is_heating →
        (control_heating_run shift_fn e data).2
          = some (if should_heat_decision ct e.target_temperature e.tolerance
                      (calculate_total_shift shift_fn e data) e.is_heating
                  then e.high_setpoint else e.low_setpoint))
    ∧ (should_heat_decision ct e.target_temperature e.tolerance
          (calculate_total_shift shift_fn e data) e.is_heating = e.is_heating →
        (control_heating_run shift_fn e data).2 = none) := by
  rw [control_heating_run_heat shift_fn e data ct hmode ht]
  split_ifs with h
  all_goals
    refine ⟨by simp [h], fun hx => ?_, fun hx => ?_⟩
  all_goals
    first
      | rfl
      | exact absurd hx h

/-- Witness for C2: scenario A of §8.6, reading 19.3 with heating previously
off: the actuator receives the high setpoint 35. -/
theorem edge_triggered_actuation_witness :
    (control_heating_run (fun _ _ _ => (0 : ℚ))
        ⟨false, 1/2, 0, 35, 5, 3, 3/2, 20, HVACMode.heat, false⟩
        (some ⟨some (193/10), none⟩)).2 = some 35 :=
  ((edge_triggered_actuation (fun _ _ _ => (0 : ℚ))
      ⟨false, 1/2, 0, 35, 5, 3, 3/2, 20, HVACMode.heat, false⟩
      (some ⟨some (193/10), none⟩) (193/10) rfl rfl).2.1
      (by norm_num [should_heat_decision, calculate_total_shift])).trans
    (by norm_num [should_heat_decision, calculate_total_shift])

/-- C3: in HEAT mode with the temperature reading absent, the evaluation makes
no decision: the state (mode, target, heating bit) is returned unchanged, no
actuator command is issued, and no error escapes. -/
theorem sensor_absent_noop {α : Type} [LinearOrderedField α]
    (shift_fn : α → α → α → α) (e : Entity α) (data : Option (CoordData α))
    (call_result : Except String Unit)
    (_hmode : e.hvac_mode = HVACMode.heat) (ht : current_temperature data = none) :
    control_heating shift_fn e data call_result = Except.ok (e, none) :=
  control_heating_nodata shift_fn e data call_result ht

/-- Witness for C3: a non-numeric temperature (reading field absent) leaves the
heating entity untouched and issues no command. -/
theorem sensor_absent_noop_witness :
    control_heating (fun _ _ _ => (0 : ℚ))
        ⟨true, 1/2, 0, 35, 5, 3, 3/2, 20, HVACMode.heat, true⟩
        (some ⟨none, some 49⟩) (Except.ok ())
      = Except.ok (⟨true, 1/2, 0, 35, 5, 3, 3/2, 20, HVACMode.heat, true⟩, none) :=
  sensor_absent_noop (fun _ _ _ => (0 : ℚ))
    ⟨true, 1/2, 0, 35, 5, 3, 3/2, 20, HVACMode.heat, true⟩
    (some ⟨none, some 49⟩) (Except.ok ()) rfl rfl

/-- C4: the aggregated shift is `base_shift` plus the price shift exactly when
a price source is configured and a numeric price reading is present, and
`base_shift` alone in every other case (no reading record, record without a
numeric price, or no configured source); the aggregation is a total function
and never fails. -/
theorem total_shift_aggregation (e : Entity ℝ) (data : Option (CoordData ℝ)) :
    (∀ d p, data = some d → d.price_diff_percent = some p →
        e.price_sensor_configured = true →
      calculate_total_shift price_based_shift_percent e data
        = e.base_shift + price_based_shift_percent p e.max_price_shift e.price_steepness)
    ∧ (e.price_sensor_configured = false →
      calculate_total_shift price_based_shift_percent e data = e.base_shift)
    ∧ (data = none → calculate_total_shift price_based_shift_percent e data = e.base_shift)
    ∧ (∀ d, data = some d → d.price_diff_percent = none →
      calculate_total_shift price_based_shift_percent e data = e.base_shift) := by
  refine ⟨?_, ?_, ?_, ?_⟩
  · rintro d p rfl hp hc
    simp [calculate_total_shift, hc, hp]
  · intro hc
    cases data <;> simp [calculate_total_shift, hc]
  · rintro rfl
    cases hc : e.price_sensor_configured <;> simp [calculate_total_shift, hc]
  · rintro d rfl hp
    cases hc : e.price_sensor_configured <;> simp [calculate_total_shift, hc, hp]

/-- Witness for C4: with no coordinator data the aggregated shift is the base
shift alone. -/
theorem total_shift_aggregation_witness :
    calculate_total_shift price_based_shift_percent
      ⟨false, 1/2, 1, 35, 5, 3, 3/2, 20, HVACMode.heat, false⟩ none = 1 :=
  (total_shift_aggregation ⟨false, 1/2, 1, 35, 5, 3, 3/2, 20, HVACMode.heat, false⟩ none).2.2.1 rfl

/-- C5: the shift function vanishes at 0, is odd in the price differential,
stays strictly inside `(-m, m)` when `m > 0`, is identically 0 when the
steepness or the maximal shift is 0, and is strictly decreasing in the price
differential when both parameters are positive. -/
theorem price_shift_props (p m s : ℝ) (hm : 0 ≤ m) (hs : 0 ≤ s) :
    price_based_shift_percent 0 m s = 0
    ∧ price_based_shift_percent (-p) m s = -price_based_shift_percent p m s
    ∧ (0 < m → -m < price_based_shift_percent p m s ∧ price_based_shift_percent p m s < m)
    ∧ (s = 0 → price_based_shift_percent p m s = 0)
    ∧ (m = 0 → price_based_shift_percent p m s = 0)
    ∧ (0 < s → 0 < m → StrictAnti fun q => price_based_shift_percent q m s) := by
  refine ⟨?_, ?_, ?_, ?_, ?_, ?_⟩
  · simp [price_based_shift_percent]
  · simp [price_based_shift_percent, neg_div, mul_neg, Real.tanh_neg]
  · intro hm'
    have h1 : Real.tanh (s * (p / 100)) < 1 := tanh_lt_one _
    have h2 : -1 < Real.tanh (s * (p / 100)) := neg_one_lt_tanh _
    unfold price_based_shift_percent
    constructor
    · nlinarith
    · nlinarith
  · rintro rfl
    simp [price_based_shift_percent]
  · rintro rfl
    simp [price_based_shift_percent]
  · intro hs' hm'
    intro q1 q2 hlt
    have hdiv : q1 / 100 < q2 / 100 := by linarith
    have hst : s * (q1 / 100) < s * (q2 / 100) := mul_lt_mul_of_pos_left hdiv hs'
    have ht := tanh_strictMono hst
    simp only [price_based_shift_percent]
    nlinarith

/-- Witness for C5: with maximal shift 1 and steepness 1 the shift at price
differential 0 is 0. -/
theorem price_shift_props_witness :
    price_based_shift_percent 0 1 1 = 0 :=
  (price_shift_props 0 1 1 (by norm_num) (by norm_num)).1

/-- C6: when the actuator call fails, the failure is caught inside the wrapped
call and never propagates; the evaluation returns successfully with exactly
the state a successful call would have produced, so the internal heating bit
is still updated to the computed decision. -/
theorem actuator_failure_contained {α : Type} [LinearOrderedField α]
    (shift_fn : α → α → α → α) (e : Entity α) (data : Option (CoordData α)) (msg : String) :
    set_real_thermostat (Except.error msg) = Except.ok ()
    ∧ control_heating shift_fn e data (Except.error msg)
        = control_heating shift_fn e data (Except.ok ())
    ∧ control_heating shift_fn e data (Except.error msg)
        = Except.ok (control_heating_run shift_fn e data) :=
  ⟨set_real_thermostat_ok (Except.error msg),
    (control_heating_eq_run shift_fn e data (Except.error msg)).trans
      (control_heating_eq_run shift_fn e data (Except.ok ())).symm,
    control_heating_eq_run shift_fn e data (Except.error msg)⟩

/-- C7: setting OFF immediately commands the low setpoint and clears the
heating bit; while the mode is OFF an evaluation changes nothing and issues no
command (the decision stays off, the low setpoint already applied); setting
HEAT immediately re-evaluates with the then-current reading. -/
theorem mode_commands {α : Type} [LinearOrderedField α]
    (shift_fn : α → α → α → α) (e : Entity α) (data data2 : Option (CoordData α))
    (c c2 : Except String Unit) :
    (set_hvac_mode shift_fn e data HVACMode.off c
       = Except.ok ({ e with hvac_mode := HVACMode.off, is_heating := false },
           some e.low_setpoint))
    ∧ (∀ e2 : Entity α, e2.hvac_mode = HVACMode.off →
        control_heating shift_fn e2 data2 c2 = Except.ok (e2, none))
    ∧ (set_hvac_mode shift_fn e data HVACMode.heat c
       = control_heating shift_fn { e with hvac_mode := HVACMode.heat } data c) := by
  refine ⟨?_, ?_, ?_⟩
  · unfold set_hvac_mode
    rw [set_real_thermostat_ok]
    rfl
  · intro e2 hm2
    exact control_heating_off shift_fn e2 data2 c2 hm2
  · unfold set_hvac_mode
    rfl

/-- Witness for C7: turning OFF commands the low setpoint 5 and clears the
heating bit, and a later evaluation while OFF leaves the state alone. -/
theorem mode_commands_witness :
    set_hvac_mode (fun _ _ _ => (0 : ℚ))
        ⟨false, 1/2, 0, 35, 5, 3, 3/2, 20, HVACMode.heat, true⟩
        none HVACMode.off (Except.ok ())
      = Except.ok (⟨false, 1/2, 0, 35, 5, 3, 3/2, 20, HVACMode.off, false⟩, some 5)
    ∧ control_heating (fun _ _ _ => (0 : ℚ))
        ⟨false, 1/2, 0, 35, 5, 3, 3/2, 20, HVACMode.off, false⟩
        (some ⟨some (193/10), none⟩) (Except.ok ())
      = Except.ok ((⟨false, 1/2, 0, 35, 5, 3, 3/2, 20, HVACMode.off, false⟩ : Entity ℚ), none) :=
  ⟨(mode_commands (fun _ _ _ => (0 : ℚ))
      ⟨false, 1/2, 0, 35, 5, 3, 3/2, 20, HVACMode.heat, true⟩
      none none (Except.ok ()) (Except.ok ())).1,
    (mode_commands (fun _ _ _ => (0 : ℚ))
      ⟨false, 1/2, 0, 35, 5, 3, 3/2, 20, HVACMode.heat, true⟩
      none (some ⟨some (193/10), none⟩) (Except.ok ()) (Except.ok ())).2.1
      ⟨false, 1/2, 0, 35, 5, 3, 3/2, 20, HVACMode.off, false⟩ rfl⟩

/-- Counterexample for C8: the set-temperature handler stores the value 100
unchanged, outside the declared range `[5, 35]` — the handler itself performs
no clamping. -/
theorem set_temperature_unclamped_cex :
    set_temperature (fun _ _ _ => (0 : ℚ))
        ⟨false, 1/2, 0, 35, 5, 3, 3/2, 20, HVACMode.off, false⟩
        none (some 100) (Except.ok ())
      = Except.ok ((⟨false, 1/2, 0, 35, 5, 3, 3/2, 100, HVACMode.off, false⟩ : Entity ℚ), none)
    ∧ ¬(attr_min_temp ≤ (100 : ℚ) ∧ (100 : ℚ) ≤ attr_max_temp) :=
  ⟨rfl, by decide⟩

/-- C8 (amended): the entity declares the range `[5, 35]` with step `0.5` as
attributes (validation against them is delegated to the host platform); the
set-temperature handler stores any given numeric value unchanged, without
clamping, and triggers an immediate re-evaluation which leaves the stored
target at that value; an absent value is ignored. -/
theorem set_temperature_stores_raw {α : Type} [LinearOrderedField α]
    (shift_fn : α → α → α → α) (e : Entity α) (data : Option (CoordData α))
    (t : α) (c : Except String Unit) :
    attr_min_temp = 5 ∧ attr_max_temp = 35 ∧ attr_target_temperature_step = 1/2
    ∧ set_temperature shift_fn e data (some t) c
        = control_heating shift_fn { e with target_temperature := t } data c
    ∧ (control_heating_run shift_fn { e with target_temperature := t } data).1.target_temperature
        = t
    ∧ set_temperature shift_fn e data none c = Except.ok (e, none) :=
  ⟨rfl, rfl, rfl, rfl,
    (control_heating_run_frame shift_fn { e with target_temperature := t } data).2, rfl⟩

/-- C10: the coordinator fetch is total: it always returns a record with a
temperature field and a price field; a field is `none` exactly when the sensor
entity is missing or its state does not parse as a number (for the price,
also when no price sensor is configured), and a parse failure is absorbed
rather than raised. -/
theorem update_data_total {α : Type} (configured : Bool) (env : SensorEnv α) :
    ((async_update_data configured env).temperature = none
        ↔ env.temp_state = none ∨ ∃ msg, env.temp_state = some (Except.error msg))
    ∧ (∀ v : α, (async_update_data configured env).temperature = some v
        ↔ env.temp_state = some (Except.ok v))
    ∧ (configured = false → (async_update_data configured env).price_diff_percent = none)
    ∧ ((async_update_data configured env).price_diff_percent = none
        ↔ configured = false ∨ env.price_state = none
            ∨ ∃ msg, env.price_state = some (Except.error msg))
    ∧ (∀ v : α, (async_update_data configured env).price_diff_percent = some v
        ↔ configured = true ∧ env.price_state = some (Except.ok v)) := by
  rcases env with ⟨ts, ps⟩
  cases configured <;>
    rcases ts with _ | (tmsg | tv) <;>
      rcases ps with _ | (pmsg | pv) <;>
        simp [async_update_data]

/-- Witness for C10: with no price sensor configured and no entities the fetch
returns an absent price field. -/
theorem update_data_total_witness :
    (async_update_data false (⟨none, none⟩ : SensorEnv ℚ)).price_diff_percent = none :=
  (update_data_total false (⟨none, none⟩ : SensorEnv ℚ)).2.2.1 rfl

end AdaptiveThermostat
